import Mathlib

/-!
# HEIF loader plug-in: pixel transfer, EXIF attachment, item selection, result protocol

A shallow embedding of `src/main.c` (`load_heif` and `run`).  The codec
(libheif) and the host (GIMP) are external: the values they hand back are
fields of the records below, and every call the plug-in makes to them is
recorded in an event trace, so that statements about "what was called, how
often and with which argument" are statements about that trace.

C `int` values are `Int`; signed overflow is undefined in C and is not
modelled.  `size_t` arithmetic is taken modulo `2 ^ SIZE_BITS`, a `size_t`
value handed to a `gint` parameter is reduced to 32 bits two's complement, and
`alloca` beyond the stack space left stops the process.
-/

namespace HeifPlugin

/-! ## Host pixel regions -/

/-- Drawable of the host: size in pixels, bytes per pixel and its bytes in
row-major order (row `y`, pixel `x`, channel `c` at `(y * width + x) * bpp + c`). -/
structure GimpDrawable where
  width : Nat
  height : Nat
  bpp : Nat
  px : List Nat

/-- Region handle filled in by `gimp_pixel_rgn_init`. -/
structure GimpPixelRgn where
  drawable : GimpDrawable
  x : Int
  y : Int
  w : Int
  h : Int

/-- Host call `gimp_pixel_rgn_init (&rgn, drawable, x, y, w, h, dirty, shadow)`. -/
def gimp_pixel_rgn_init (drawable : GimpDrawable) (x y w h : Int) : GimpPixelRgn :=
  { drawable := drawable, x := x, y := y, w := w, h := h }

/-- Byte copy of `n` bytes from `buf` to `dest` starting at index `base`,
one byte after the other. -/
def copy_bytes (dest : List Nat) (base : Nat) (buf : Nat → Nat) (n : Nat) : List Nat :=
  (List.range n).foldl (fun d k => d.set (base + k) (buf k)) dest

/-- Host call `gimp_pixel_rgn_set_row (pr, buf, x, y, width)`: after the bounds
checks of the host, `width` pixels (`width * bpp` bytes) of `buf` go to row `y`
from column `x`. -/
def gimp_pixel_rgn_set_row (pr : GimpPixelRgn) (buf : Nat → Nat) (x y width : Int) :
    GimpPixelRgn :=
  if 0 ≤ x ∧ x + width ≤ pr.drawable.width ∧ 0 ≤ y ∧ y < pr.drawable.height ∧ 0 ≤ width then
    { pr with drawable := { pr.drawable with
        px := copy_bytes pr.drawable.px
                ((y.toNat * pr.drawable.width + x.toNat) * pr.drawable.bpp)
                buf (width.toNat * pr.drawable.bpp) } }
  else pr

/-- Host call `gimp_pixel_rgn_set_rect (pr, buf, x, y, width, height)`: after
the bounds checks of the host, byte `n` of `buf` (rows of `width * bpp` bytes,
no gap between rows) goes to row `y + n / (width * bpp)`, byte
`n % (width * bpp)` after column `x`. -/
def gimp_pixel_rgn_set_rect (pr : GimpPixelRgn) (buf : Nat → Nat) (x y width height : Int) :
    GimpPixelRgn :=
  if 0 ≤ x ∧ x + width ≤ pr.drawable.width ∧ 0 ≤ y ∧ y + height ≤ pr.drawable.height
      ∧ 0 ≤ width ∧ 0 ≤ height then
    { pr with drawable := { pr.drawable with
        px := (List.range (width.toNat * height.toNat * pr.drawable.bpp)).foldl
                (fun d n =>
                  d.set (((y.toNat + n / (width.toNat * pr.drawable.bpp)) * pr.drawable.width
                            + x.toNat) * pr.drawable.bpp
                          + n % (width.toNat * pr.drawable.bpp))
                        (buf n))
                pr.drawable.px } }
  else pr

/-! ## Pixel transfer (`load_heif`, lines 238-259) -/

/-- Bulk branch: one `gimp_pixel_rgn_set_rect` of the whole rectangle from `data`. -/
def transfer_bulk (rgn_out : GimpPixelRgn) (data : Int → Nat) (width height : Int) :
    GimpPixelRgn :=
  gimp_pixel_rgn_set_rect rgn_out (fun k => data (k : Int)) 0 0 width height

/-- Row branch: `for (y=0;y<height;y++) gimp_pixel_rgn_set_row(&rgn_out, data+y*stride, 0,y,width)`. -/
def transfer_rows (rgn_out : GimpPixelRgn) (data : Int → Nat) (width height stride : Int) :
    GimpPixelRgn :=
  (List.range height.toNat).foldl
    (fun r (y : Nat) =>
      gimp_pixel_rgn_set_row r (fun k => data ((y : Int) * stride + (k : Int))) 0 (y : Int) width)
    rgn_out

/-- The transfer of `load_heif`: `data` is the plane pointer (byte at `data + i`
is `data i`), `stride` and `bpp` come from the decoded image. -/
def transfer (rgn_out : GimpPixelRgn) (data : Int → Nat) (width height stride bpp : Int) :
    GimpPixelRgn :=
  if stride = width * bpp then transfer_bulk rgn_out data width height
  else transfer_rows rgn_out data width height stride

/-! ## Codec (libheif) -/

/-- Width of `size_t` in bits. -/
def SIZE_BITS : Nat := 64

/-- Subtraction `a - b` of two `size_t` values (wraps around modulo `2 ^ SIZE_BITS`). -/
def size_t_sub (a b : Nat) : Nat :=
  (a % 2 ^ SIZE_BITS + 2 ^ SIZE_BITS - b % 2 ^ SIZE_BITS) % 2 ^ SIZE_BITS

/-- Largest value of a `gint` (`G_MAXINT`, 32 bits). -/
def G_MAXINT : Nat := 2147483647

/-- Value a `gint` parameter receives from a `size_t` argument: the low 32 bits
read as two's complement. -/
def gint_of_size_t (n : Nat) : Int :=
  if n % 2 ^ 32 < 2 ^ 31 then ((n % 2 ^ 32 : Nat) : Int)
  else ((n % 2 ^ 32 : Nat) : Int) - 2 ^ 32

/-- Chroma layouts requested from `heif_decode_image`. -/
inductive heif_chroma where
  | heif_chroma_interleaved_24bit
  | heif_chroma_interleaved_32bit
  deriving DecidableEq

/-- Decoded image as the plug-in reads it: `heif_image_get_width`,
`heif_image_get_height`, the stride and plane of `heif_image_get_plane_readonly`
(byte at `data + i` is `plane i`) and `heif_image_get_bits_per_pixel`. -/
structure heif_image where
  width : Int
  height : Int
  stride : Int
  bits_per_pixel : Int
  plane : Int → Nat

/-- Metadata block of an image item: its item id and its bytes. -/
structure heif_metadata_block where
  id : Nat
  data : List Nat

/-- Image handle: alpha flag, what `heif_decode_image` gives for a requested
chroma (`.error` carries `err.message` of a non-zero `err.code`) and the
metadata blocks of type "Exif" in the order of the file. -/
structure heif_image_handle where
  has_alpha_channel : Int
  decode : heif_chroma → Except String heif_image
  exif_blocks : List heif_metadata_block

/-- Container after `heif_context_read_from_file`: identifiers of the top-level
images in the order of the codec, the result of the primary lookup and the
result of the handle lookup per identifier. -/
structure heif_context where
  top_level : List Nat
  primary : Except String Nat
  image_handle : Nat → Except String heif_image_handle

def heif_context_get_number_of_top_level_images (ctx : heif_context) : Int :=
  ctx.top_level.length

def heif_context_get_primary_image_ID (ctx : heif_context) : Except String Nat :=
  ctx.primary

def heif_context_is_top_level_image_ID (ctx : heif_context) (id : Nat) : Bool :=
  ctx.top_level.contains id

/-- The first `count` top-level identifiers; the C function returns how many it wrote. -/
def heif_context_get_list_of_top_level_image_IDs (ctx : heif_context) (count : Nat) : List Nat :=
  ctx.top_level.take count

def heif_context_get_image_handle (ctx : heif_context) (id : Nat) :
    Except String heif_image_handle :=
  ctx.image_handle id

def heif_image_handle_has_alpha_channel (handle : heif_image_handle) : Int :=
  handle.has_alpha_channel

/-- Identifiers of the first `count` blocks of type "Exif". -/
def heif_image_handle_get_list_of_metadata_block_IDs (handle : heif_image_handle)
    (count : Nat) : List Nat :=
  (handle.exif_blocks.map (fun b => b.id)).take count

/-- Bytes that `heif_image_handle_get_metadata` writes for the block `id`. -/
def heif_image_handle_get_metadata (handle : heif_image_handle) (id : Nat) : List Nat :=
  match handle.exif_blocks.find? (fun b => b.id == id) with
  | some b => b.data
  | none => []

def heif_image_handle_get_metadata_size (handle : heif_image_handle) (id : Nat) : Nat :=
  (heif_image_handle_get_metadata handle id).length

/-! ## Host and user -/

/-- What the host and the user answer: the codec's reading of a file, the
chooser `dialog (ctx, &selected_image)` (accepted or not, and the value it
leaves in `selected_image`), the identifiers of `gimp_image_new` and
`gimp_layer_new`, and whether `gimp_image_insert_layer` succeeds.
`stack_limit` is the number of bytes `alloca` can still take from the stack
when `load_heif` allocates the metadata buffer; `exif_fits` restricts the
record to environments in which the first "Exif" block of every image the
codec hands out fits into that space (the block sizes for which it does not
are treated on `attach_exif` itself, which takes the limit as an argument). -/
structure World where
  read_from_file : String → Except String heif_context
  dialog : heif_context → Nat → Bool × Nat
  gimp_image_new : Int
  gimp_layer_new : Int
  gimp_image_insert_layer : Bool
  stack_limit : Nat
  exif_fits : ∀ (filename : String) (ctx : heif_context) (id : Nat)
    (handle : heif_image_handle) (block : heif_metadata_block)
    (rest : List heif_metadata_block),
    read_from_file filename = .ok ctx → ctx.image_handle id = .ok handle →
    handle.exif_blocks = block :: rest → block.data.length ≤ stack_limit

/-- Calls made by `load_heif`, in program order. -/
inductive Event where
  | heif_context_alloc
  | heif_context_read_from_file (filename : String)
  | heif_context_free
  | gimp_message (message : String)
  | dialog (selected_image : Nat)
  | heif_context_get_image_handle (id : Nat) (ok : Bool)
  | heif_image_handle_release
  | heif_decode_image (chroma : heif_chroma) (ok : Bool)
  | heif_image_release
  | gimp_image_new (width height : Int)
  | gimp_image_set_filename (image_ID : Int) (filename : String)
  | gimp_layer_new (image_ID width height : Int) (has_alpha : Bool)
  | gimp_image_insert_layer (image_ID layer_ID : Int)
  | gimp_image_delete (image_ID : Int)
  | pixel_transfer (bulk : Bool)
  | gimp_image_attach_new_parasite (image_ID : Int) (name : String) (flags : Int)
      (size : Int) (data : List Nat)
  | gimp_drawable_flush
  | gimp_drawable_merge_shadow
  | gimp_drawable_update (width height : Int)
  | gimp_drawable_detach
  deriving DecidableEq

def Event.is_message : Event → Bool
  | .gimp_message _ => true
  | _ => false

def Event.is_image_new : Event → Bool
  | .gimp_image_new _ _ => true
  | _ => false

def Event.is_dialog : Event → Bool
  | .dialog _ => true
  | _ => false

/-- Item of a `heif_context_get_image_handle` call. -/
def Event.handle_item : Event → Option Nat
  | .heif_context_get_image_handle id _ => some id
  | _ => none

/-- Result of `load_heif`: the returned `gint32` (`none` when `assert` or a
stack overflow stopped the process), the calls made, and the drawable after
the transfer when the function got that far. -/
structure Outcome where
  ret : Option Int
  trace : List Event
  surface : Option GimpDrawable

def LOAD_HEIF_ERROR : Int := -1
def LOAD_HEIF_CANCEL : Int := -2

/-- Lines 151-156: the declared primary stays when it is a top-level image,
otherwise the one-entry list of top-level identifiers overwrites it;
`assert (n==1)` stops the process otherwise. -/
def resolve_primary (ctx : heif_context) (primary : Nat) : Option Nat :=
  if !heif_context_is_top_level_image_ID ctx primary then
    let ids := heif_context_get_list_of_top_level_image_IDs ctx 1
    let n : Int := ids.length
    if n = 1 then some (ids.headD primary) else none
  else some primary

/-- Lines 261-278: the parasite call made for the first "Exif" block, if any.
`none`: `alloca (data_size)` asks for more than the `stack_limit` bytes left on
the stack, the process stops and no call is made.  Otherwise `size` is the
value of `data_size - heif_exif_skip` (a `size_t`) as the `gint size` parameter
of the host receives it, and `data` is what the host can read of the stack
buffer from `data + heif_exif_skip`, at most `size` bytes. -/
def attach_exif (stack_limit : Nat) (handle : heif_image_handle) (image_ID : Int) :
    Option (List Event) :=
  let ids := heif_image_handle_get_list_of_metadata_block_IDs handle 1
  let num_metadata : Int := ids.length
  let metadata_id := ids.headD 0
  if num_metadata > 0 then
    let data_size := heif_image_handle_get_metadata_size handle metadata_id
    if data_size > stack_limit then none
    else
      let data := heif_image_handle_get_metadata handle metadata_id
      let heif_exif_skip : Nat := 4
      let size := gint_of_size_t (size_t_sub data_size heif_exif_skip)
      some [Event.gimp_image_attach_new_parasite image_ID "exif-data" 0 size
        ((data.drop heif_exif_skip).take size.toNat)]
  else some []

/-- The drawable `gimp_drawable_get (layer_ID)` of the layer made by
`gimp_layer_new (image_ID, _, width, height, has_alpha ? GIMP_RGBA_IMAGE : GIMP_RGB_IMAGE, ..)`. -/
def gimp_drawable_get (width height : Int) (has_alpha : Int) : GimpDrawable :=
  let bpp := if has_alpha ≠ 0 then 4 else 3
  { width := width.toNat, height := height.toNat, bpp := bpp,
    px := List.replicate (width.toNat * height.toNat * bpp) 0 }

/-- Lines 174-292 of `load_heif`: from the handle lookup to the return, with the
calls made so far in `t`. -/
def load_item (w : World) (ctx : heif_context) (filename : String) (t : List Event)
    (selected_image : Nat) : Outcome :=
  match heif_context_get_image_handle ctx selected_image with
  | .error message =>
    { ret := some LOAD_HEIF_ERROR,
      trace := t ++ [.heif_context_get_image_handle selected_image false,
                     .gimp_message message, .heif_context_free],
      surface := none }
  | .ok handle =>
    let has_alpha := heif_image_handle_has_alpha_channel handle
    let chroma := if has_alpha ≠ 0 then heif_chroma.heif_chroma_interleaved_32bit
                  else heif_chroma.heif_chroma_interleaved_24bit
    let t1 := t ++ [.heif_context_get_image_handle selected_image true]
    match handle.decode chroma with
    | .error message =>
      { ret := some LOAD_HEIF_ERROR,
        trace := t1 ++ [.heif_decode_image chroma false, .heif_image_handle_release,
                        .heif_context_free, .gimp_message message],
        surface := none }
    | .ok img =>
      let width := img.width
      let height := img.height
      let image_ID := w.gimp_image_new
      let layer_ID := w.gimp_layer_new
      let t2 := t1 ++ [.heif_decode_image chroma true,
                       .gimp_image_new width height,
                       .gimp_image_set_filename image_ID filename,
                       .gimp_layer_new image_ID width height (decide (has_alpha ≠ 0)),
                       .gimp_image_insert_layer image_ID layer_ID]
      if !w.gimp_image_insert_layer then
        { ret := some LOAD_HEIF_ERROR,
          trace := t2 ++ [.heif_image_release, .gimp_image_delete image_ID],
          surface := none }
      else
        let drawable := gimp_drawable_get width height has_alpha
        let rgn_out := gimp_pixel_rgn_init drawable 0 0 width height
        let stride := img.stride
        let bpp := img.bits_per_pixel.tdiv 8
        let rgn_out := transfer rgn_out img.plane width height stride bpp
        let t3 := t2 ++ [.pixel_transfer (decide (stride = width * bpp))]
        match attach_exif w.stack_limit handle image_ID with
        | none => { ret := none, trace := t3, surface := some rgn_out.drawable }
        | some parasite =>
          { ret := some image_ID,
            trace := t3 ++ parasite
                        ++ [.gimp_drawable_flush, .gimp_drawable_merge_shadow,
                            .gimp_drawable_update width height, .gimp_drawable_detach,
                            .heif_image_handle_release, .heif_context_free,
                            .heif_image_release],
            surface := some rgn_out.drawable }

/-- The function `load_heif (filename, interactive)`. -/
def load_heif (w : World) (filename : String) (interactive : Int) : Outcome :=
  let t0 := [Event.heif_context_alloc, Event.heif_context_read_from_file filename]
  match w.read_from_file filename with
  | .error message =>
    { ret := some LOAD_HEIF_ERROR,
      trace := t0 ++ [.gimp_message message, .heif_context_free], surface := none }
  | .ok ctx =>
    let num := heif_context_get_number_of_top_level_images ctx
    if num = 0 then
      { ret := some LOAD_HEIF_ERROR,
        trace := t0 ++ [.gimp_message "Input file contains no readable images",
                        .heif_context_free],
        surface := none }
    else
      match heif_context_get_primary_image_ID ctx with
      | .error message =>
        { ret := some LOAD_HEIF_ERROR,
          trace := t0 ++ [.gimp_message message, .heif_context_free], surface := none }
      | .ok primary =>
        match resolve_primary ctx primary with
        | none => { ret := none, trace := t0, surface := none }
        | some primary =>
          let selected_image := primary
          if interactive ≠ 0 ∧ num > 1 then
            let answer := w.dialog ctx selected_image
            if !answer.1 then
              { ret := some LOAD_HEIF_CANCEL,
                trace := t0 ++ [.dialog selected_image, .heif_context_free],
                surface := none }
            else
              load_item w ctx filename (t0 ++ [.dialog selected_image]) answer.2
          else
            load_item w ctx filename t0 selected_image

/-! ## Entry point `run` -/

/-- Status values of the host (`GimpPDBStatusType`). -/
inductive GimpPDBStatusType where
  | GIMP_PDB_EXECUTION_ERROR
  | GIMP_PDB_CALLING_ERROR
  | GIMP_PDB_PASS_THROUGH
  | GIMP_PDB_SUCCESS
  | GIMP_PDB_CANCEL
  deriving DecidableEq

def LOAD_PROC : String := "load_heif_file"

def GIMP_RUN_INTERACTIVE : Int := 0

/-- What `run` hands back: `*nreturn_vals`, `values[0].data.d_status`, the value
stored in `values[1].data.d_image` by this call (if any) and the calls made. -/
structure RunResult where
  nreturn_vals : Int
  d_status : GimpPDBStatusType
  d_image : Option Int
  trace : List Event

/-- The function `run`; `run_mode` is `param[0].data.d_int32`, `filename` is
`param[1].data.d_string`.  `none` when the process was stopped in `load_heif`. -/
def run (w : World) (name : String) (n_params : Int) (run_mode : Int) (filename : String) :
    Option RunResult :=
  if name = LOAD_PROC then
    let status := if n_params ≠ 3 then GimpPDBStatusType.GIMP_PDB_CALLING_ERROR
                  else GimpPDBStatusType.GIMP_PDB_SUCCESS
    let is_interactive : Int := if run_mode = GIMP_RUN_INTERACTIVE then 1 else 0
    if status = GimpPDBStatusType.GIMP_PDB_SUCCESS then
      let o := load_heif w filename is_interactive
      match o.ret with
      | none => none
      | some gimp_image_ID =>
        if gimp_image_ID ≥ 0 then
          some { nreturn_vals := 2, d_status := status, d_image := some gimp_image_ID,
                 trace := o.trace }
        else if gimp_image_ID = LOAD_HEIF_CANCEL then
          some { nreturn_vals := 1, d_status := GimpPDBStatusType.GIMP_PDB_CANCEL,
                 d_image := none, trace := o.trace }
        else
          some { nreturn_vals := 1, d_status := GimpPDBStatusType.GIMP_PDB_EXECUTION_ERROR,
                 d_image := none, trace := o.trace }
    else
      some { nreturn_vals := 1, d_status := status, d_image := none, trace := [] }
  else
    some { nreturn_vals := 1, d_status := GimpPDBStatusType.GIMP_PDB_CALLING_ERROR,
           d_image := none, trace := [] }

/-! ## Concrete inputs -/

/-- A 2 x 2 RGB image without padding. -/
def sample_image : heif_image :=
  { width := 2, height := 2, stride := 6, bits_per_pixel := 24,
    plane := fun i => (i.toNat + 1) % 256 }

/-- A handle without alpha channel and without metadata whose decoding succeeds. -/
def sample_handle : heif_image_handle :=
  { has_alpha_channel := 0, decode := fun _ => .ok sample_image, exif_blocks := [] }

/-- A handle whose only "Exif" block has two bytes. -/
def short_exif_handle : heif_image_handle :=
  { has_alpha_channel := 0, decode := fun _ => .ok sample_image,
    exif_blocks := [{ id := 9, data := [77, 77] }] }

/-- A handle whose only "Exif" block has six bytes. -/
def exif_handle : heif_image_handle :=
  { has_alpha_channel := 0, decode := fun _ => .ok sample_image,
    exif_blocks := [{ id := 9, data := [0, 0, 0, 6, 77, 42] }] }

/-- A container with top-level images 5, 6, 7 whose declared primary, 9, is not
one of them. -/
def sample_context : heif_context :=
  { top_level := [5, 6, 7], primary := .ok 9, image_handle := fun _ => .ok sample_handle }

/-- A handle whose only "Exif" block has 9 000 000 bytes. -/
def large_exif_handle : heif_image_handle :=
  { has_alpha_channel := 0, decode := fun _ => .ok sample_image,
    exif_blocks := [{ id := 9, data := List.replicate 9000000 0 }] }

/-- A handle whose only "Exif" block has `2^31 + 4` bytes. -/
def huge_exif_handle : heif_image_handle :=
  { has_alpha_channel := 0, decode := fun _ => .ok sample_image,
    exif_blocks := [{ id := 9, data := List.replicate 2147483652 0 }] }

/-- A readable file, a user who picks item 6, and a host on which
`gimp_image_insert_layer` fails. -/
def world_insert_fails : World :=
  { read_from_file := fun _ => .ok sample_context,
    dialog := fun _ _ => (true, 6),
    gimp_image_new := 1, gimp_layer_new := 2, gimp_image_insert_layer := false,
    stack_limit := 8388608,
    exif_fits := by
      intro filename ctx id handle block rest h1 h2 h3
      have hctx : sample_context = ctx := Except.ok.inj h1
      subst hctx
      have hhandle : sample_handle = handle := Except.ok.inj h2
      subst hhandle
      exact absurd h3 (List.cons_ne_nil block rest).symm }

/-- A readable file and a user who cancels the chooser. -/
def world_cancel : World :=
  { read_from_file := fun _ => .ok sample_context,
    dialog := fun _ s => (false, s),
    gimp_image_new := 1, gimp_layer_new := 2, gimp_image_insert_layer := true,
    stack_limit := 8388608,
    exif_fits := by
      intro filename ctx id handle block rest h1 h2 h3
      have hctx : sample_context = ctx := Except.ok.inj h1
      subst hctx
      have hhandle : sample_handle = handle := Except.ok.inj h2
      subst hhandle
      exact absurd h3 (List.cons_ne_nil block rest).symm }

/-- A readable file, a user who picks item 6, and a host on which everything succeeds. -/
def world_ok : World :=
  { read_from_file := fun _ => .ok sample_context,
    dialog := fun _ _ => (true, 6),
    gimp_image_new := 1, gimp_layer_new := 2, gimp_image_insert_layer := true,
    stack_limit := 8388608,
    exif_fits := by
      intro filename ctx id handle block rest h1 h2 h3
      have hctx : sample_context = ctx := Except.ok.inj h1
      subst hctx
      have hhandle : sample_handle = handle := Except.ok.inj h2
      subst hhandle
      exact absurd h3 (List.cons_ne_nil block rest).symm }

/-! ## Pixel transfer: the two branches -/

/-- Flat destination index used by `gimp_pixel_rgn_set_rect` at origin `(0,0)`. -/
theorem rect_index_row (W bpp wb h k : Nat) (hk : k < wb) :
    ((0 + (wb * h + k) / wb) * W + 0) * bpp + (wb * h + k) % wb = (h * W + 0) * bpp + k := by
  have hpos : 0 < wb := Nat.lt_of_le_of_lt (Nat.zero_le k) hk
  have hdiv : (wb * h + k) / wb = h := by
    rw [Nat.add_comm, Nat.add_mul_div_left _ _ hpos, Nat.div_eq_of_lt hk, Nat.zero_add]
  have hmod : (wb * h + k) % wb = k := by
    rw [Nat.add_comm, Nat.add_mul_mod_self_left, Nat.mod_eq_of_lt hk]
  rw [hdiv, hmod]
  simp

/-- After `h` row calls the region is what one rectangle fold over the first
`h` rows of a gap-free buffer gives. -/
theorem rows_fold_eq_rect_fold (pr : GimpPixelRgn) (data : Int → Nat) (w : Nat) (stride : Int)
    (hs : stride = (w : Int) * (pr.drawable.bpp : Int)) (hw : w ≤ pr.drawable.width) :
    ∀ h : Nat, h ≤ pr.drawable.height →
      (List.range h).foldl
          (fun r (y : Nat) =>
            gimp_pixel_rgn_set_row r (fun k => data ((y : Int) * stride + (k : Int))) 0 (y : Int)
              (w : Int)) pr
        = { pr with drawable := { pr.drawable with
              px := (List.range (w * pr.drawable.bpp * h)).foldl
                      (fun d n =>
                        d.set (((0 + n / (w * pr.drawable.bpp)) * pr.drawable.width + 0)
                                  * pr.drawable.bpp + n % (w * pr.drawable.bpp))
                              (data n))
                      pr.drawable.px } } := by
  intro h
  induction h with
  | zero => intro _; simp
  | succ h ih =>
    intro hh
    rw [List.range_succ, List.foldl_append, ih (Nat.le_of_succ_le hh)]
    have hlt : h < pr.drawable.height := hh
    have hguard : (0 : Int) ≤ 0 ∧ (0 : Int) + (w : Int) ≤ (pr.drawable.width : Int) ∧
        (0 : Int) ≤ (h : Int) ∧ (h : Int) < (pr.drawable.height : Int) ∧ (0 : Int) ≤ (w : Int) := by
      refine ⟨le_refl _, ?_, ?_, ?_, ?_⟩
      · simpa using hw
      · exact Int.ofNat_nonneg h
      · exact_mod_cast hlt
      · exact Int.ofNat_nonneg w
    simp only [List.foldl_cons, List.foldl_nil, gimp_pixel_rgn_set_row, hguard, and_self,
      if_true, Int.toNat_ofNat, Int.toNat_zero, copy_bytes]
    rw [Nat.mul_succ, List.range_add, List.foldl_append, List.foldl_map]
    congr 2
    apply List.foldl_ext
    intro d k hk
    have hk2 : k < w * pr.drawable.bpp := List.mem_range.mp hk
    rw [rect_index_row _ _ _ _ _ hk2]
    congr 2
    rw [hs]
    push_cast
    ring

/-- Row calls wider than the drawable are all refused by the host. -/
theorem rows_fold_refused (pr : GimpPixelRgn) (buf : Nat → Nat → Nat) (width : Int)
    (hw : ¬ (0 + width ≤ (pr.drawable.width : Int))) (ys : List Nat) :
    ys.foldl (fun r (y : Nat) => gimp_pixel_rgn_set_row r (buf y) 0 (y : Int) width) pr = pr := by
  induction ys with
  | nil => rfl
  | cons y ys ih =>
    have hstep : gimp_pixel_rgn_set_row pr (buf y) 0 (y : Int) width = pr := by
      unfold gimp_pixel_rgn_set_row
      rw [if_neg]
      intro hg
      exact hw hg.2.1
    rw [List.foldl_cons, hstep, ih]

/-- C1: when `stride == width*bpp` (with `width >= 0`, `height >= 0`, `bpp` the
bytes per pixel of the destination and the rectangle not taller than the
drawable), the single `gimp_pixel_rgn_set_rect` of the bulk branch leaves the
same region, byte for byte, as the `gimp_pixel_rgn_set_row` loop over
`data + y*stride`. -/
theorem transfer_bulk_eq_rows (rgn_out : GimpPixelRgn) (data : Int → Nat)
    (width height stride bpp : Int)
    (hw : 0 ≤ width) (hh : 0 ≤ height) (hs : stride = width * bpp)
    (hbpp : (rgn_out.drawable.bpp : Int) = bpp)
    (hfit : height ≤ (rgn_out.drawable.height : Int)) :
    transfer_bulk rgn_out data width height = transfer_rows rgn_out data width height stride := by
  obtain ⟨w, rfl⟩ := Int.eq_ofNat_of_zero_le hw
  obtain ⟨h, rfl⟩ := Int.eq_ofNat_of_zero_le hh
  have hfit2 : h ≤ rgn_out.drawable.height := by exact_mod_cast hfit
  unfold transfer_bulk transfer_rows
  by_cases hwW : (0 : Int) + (w : Int) ≤ (rgn_out.drawable.width : Int)
  · have hwW2 : w ≤ rgn_out.drawable.width := by simpa using hwW
    have hs2 : stride = (w : Int) * (rgn_out.drawable.bpp : Int) := by rw [hs, hbpp]
    rw [Int.toNat_ofNat, rows_fold_eq_rect_fold rgn_out data w stride hs2 hwW2 h hfit2]
    have hguard : (0 : Int) ≤ 0 ∧ (0 : Int) + (w : Int) ≤ (rgn_out.drawable.width : Int) ∧
        (0 : Int) ≤ 0 ∧ (0 : Int) + (h : Int) ≤ (rgn_out.drawable.height : Int) ∧
        (0 : Int) ≤ (w : Int) ∧ (0 : Int) ≤ (h : Int) :=
      ⟨le_refl _, hwW, le_refl _, by simpa using hfit, hw, hh⟩
    simp only [gimp_pixel_rgn_set_rect, hguard, and_self, if_true, Int.toNat_ofNat,
      Int.toNat_zero]
    have hmul : w * h * rgn_out.drawable.bpp = w * rgn_out.drawable.bpp * h := by ring
    rw [hmul]
  · rw [rows_fold_refused rgn_out _ (w : Int) hwW]
    unfold gimp_pixel_rgn_set_rect
    rw [if_neg]
    intro hg
    exact hwW hg.2.1

/-- Witness for C1: a 2 x 2 image of 3 bytes per pixel, stride 6. -/
theorem transfer_bulk_eq_rows_witness :
    transfer_bulk (gimp_pixel_rgn_init ⟨2, 2, 3, List.replicate 12 0⟩ 0 0 2 2)
        (fun i => (i.toNat + 1) % 256) 2 2
      = transfer_rows (gimp_pixel_rgn_init ⟨2, 2, 3, List.replicate 12 0⟩ 0 0 2 2)
        (fun i => (i.toNat + 1) % 256) 2 2 6 :=
  transfer_bulk_eq_rows (gimp_pixel_rgn_init ⟨2, 2, 3, List.replicate 12 0⟩ 0 0 2 2)
    (fun i => (i.toNat + 1) % 256) 2 2 6 3 (by decide) (by decide) (by decide) (by decide)
    (by decide)

/-! ## Pixel transfer: content of the row branch -/

theorem copy_bytes_length (dest : List Nat) (base : Nat) (buf : Nat → Nat) (n : Nat) :
    (copy_bytes dest base buf n).length = dest.length := by
  unfold copy_bytes
  induction n with
  | zero => simp
  | succ n ih => rw [List.range_succ, List.foldl_append]; simp [ih]

/-- Byte `p` after a copy: the source byte when `p` lies in the copied window,
the old byte otherwise. -/
theorem copy_bytes_getElem? (dest : List Nat) (base : Nat) (buf : Nat → Nat) (n p : Nat) :
    (copy_bytes dest base buf n)[p]? =
      if base ≤ p ∧ p < base + n ∧ p < dest.length then some (buf (p - base)) else dest[p]? := by
  induction n with
  | zero =>
    have hc : ¬ (base ≤ p ∧ p < base + 0 ∧ p < dest.length) := by
      intro h0
      omega
    rw [if_neg hc]
    rfl
  | succ n ih =>
    have hstep : copy_bytes dest base buf (n + 1)
        = (copy_bytes dest base buf n).set (base + n) (buf n) := by
      unfold copy_bytes
      rw [List.range_succ, List.foldl_append]
      rfl
    rw [hstep, List.getElem?_set, copy_bytes_length, ih]
    by_cases hp : base + n = p
    · subst hp
      by_cases hl : base + n < dest.length
      · simp [hl]
      · have hnone : dest[base + n]? = none := List.getElem?_eq_none (Nat.le_of_not_lt hl)
        simp [hl, hnone]
    · rw [if_neg hp]
      by_cases hc : base ≤ p ∧ p < base + n ∧ p < dest.length
      · have hc2 : base ≤ p ∧ p < base + (n + 1) ∧ p < dest.length :=
          ⟨hc.1, by omega, hc.2.2⟩
        rw [if_pos hc, if_pos hc2]
      · have hc2 : ¬ (base ≤ p ∧ p < base + (n + 1) ∧ p < dest.length) := by
          intro h2
          apply hc
          exact ⟨h2.1, by omega, h2.2.2⟩
        rw [if_neg hc, if_neg hc2]

/-- A copy reads only the first `n` bytes of its source. -/
theorem copy_bytes_congr (dest : List Nat) (base : Nat) (buf buf2 : Nat → Nat) (n : Nat)
    (h : ∀ k, k < n → buf2 k = buf k) :
    copy_bytes dest base buf2 n = copy_bytes dest base buf n := by
  unfold copy_bytes
  apply List.foldl_ext
  intro d k hk
  rw [h k (List.mem_range.mp hk)]

theorem row_offset_lt (y h W bpp w k : Nat) (hy : y < h) (hk : k < w * bpp) (hw : w ≤ W) :
    (y * W + 0) * bpp + k < (h * W + 0) * bpp := by
  have h1 : w * bpp ≤ W * bpp := Nat.mul_le_mul_right _ hw
  have h2 : (y + 1) * W * bpp ≤ h * W * bpp :=
    Nat.mul_le_mul_right _ (Nat.mul_le_mul_right _ hy)
  have h3 : (y + 1) * W * bpp = y * W * bpp + W * bpp := by ring
  simp only [Nat.add_zero]
  omega

/-- State of the region after the first `h` iterations of the row loop: same
geometry, same number of bytes, and rows `0 .. h-1` hold the first
`w * bpp` bytes of their source rows. -/
theorem rows_fold_inv (pr : GimpPixelRgn) (buf : Nat → Nat → Nat) (w : Nat)
    (hw : w ≤ pr.drawable.width)
    (hlen : pr.drawable.px.length
              = pr.drawable.width * pr.drawable.height * pr.drawable.bpp) :
    ∀ h : Nat, h ≤ pr.drawable.height →
      ((List.range h).foldl
          (fun r (y : Nat) => gimp_pixel_rgn_set_row r (buf y) 0 (y : Int) (w : Int)) pr).drawable.width
        = pr.drawable.width ∧
      ((List.range h).foldl
          (fun r (y : Nat) => gimp_pixel_rgn_set_row r (buf y) 0 (y : Int) (w : Int)) pr).drawable.height
        = pr.drawable.height ∧
      ((List.range h).foldl
          (fun r (y : Nat) => gimp_pixel_rgn_set_row r (buf y) 0 (y : Int) (w : Int)) pr).drawable.bpp
        = pr.drawable.bpp ∧
      ((List.range h).foldl
          (fun r (y : Nat) => gimp_pixel_rgn_set_row r (buf y) 0 (y : Int) (w : Int)) pr).drawable.px.length
        = pr.drawable.px.length ∧
      ∀ y k : Nat, y < h → k < w * pr.drawable.bpp →
        ((List.range h).foldl
            (fun r (y : Nat) => gimp_pixel_rgn_set_row r (buf y) 0 (y : Int) (w : Int))
            pr).drawable.px[(y * pr.drawable.width + 0) * pr.drawable.bpp + k]?
          = some (buf y k) := by
  intro h
  induction h with
  | zero =>
    intro _
    refine ⟨rfl, rfl, rfl, rfl, ?_⟩
    intro y k hy
    exact absurd hy (Nat.not_lt_zero y)
  | succ h ih =>
    intro hh
    obtain ⟨iw, ihh, ib, il, ic⟩ := ih (Nat.le_of_succ_le hh)
    have hlt : h < pr.drawable.height := hh
    rw [List.range_succ, List.foldl_append]
    generalize (List.range h).foldl
      (fun r (y : Nat) => gimp_pixel_rgn_set_row r (buf y) 0 (y : Int) (w : Int)) pr = r at *
    have hguard : (0 : Int) ≤ 0 ∧ (0 : Int) + (w : Int) ≤ (r.drawable.width : Int) ∧
        (0 : Int) ≤ (h : Int) ∧ (h : Int) < (r.drawable.height : Int) ∧ (0 : Int) ≤ (w : Int) := by
      rw [iw, ihh]
      refine ⟨le_refl _, ?_, Int.ofNat_nonneg h, ?_, Int.ofNat_nonneg w⟩
      · simpa using hw
      · exact_mod_cast hlt
    simp only [List.foldl_cons, List.foldl_nil, gimp_pixel_rgn_set_row, hguard, and_self,
      if_true, Int.toNat_ofNat, Int.toNat_zero, copy_bytes_length]
    refine ⟨iw, ihh, ib, il, ?_⟩
    intro y k hy hk
    rw [copy_bytes_getElem?, iw, ib, il, hlen]
    by_cases hyh : y = h
    · subst hyh
      have hin : (y * pr.drawable.width + 0) * pr.drawable.bpp + k
          < pr.drawable.width * pr.drawable.height * pr.drawable.bpp := by
        have h1 := row_offset_lt y pr.drawable.height pr.drawable.width pr.drawable.bpp w k
          hlt hk hw
        have h2 : (pr.drawable.height * pr.drawable.width + 0) * pr.drawable.bpp
            = pr.drawable.width * pr.drawable.height * pr.drawable.bpp := by ring
        omega
      rw [if_pos ⟨Nat.le_add_right _ _, by omega, hin⟩]
      simp
    · have hy2 : y < h := by omega
      have hout := row_offset_lt y h pr.drawable.width pr.drawable.bpp w k hy2 hk hw
      rw [if_neg (by omega)]
      exact ic y k hy2 hk

/-- Two sources that agree on the first `w * bpp` bytes of every row give the
same region after the row loop. -/
theorem rows_fold_congr (pr : GimpPixelRgn) (buf buf2 : Nat → Nat → Nat) (w : Nat)
    (hw : w ≤ pr.drawable.width)
    (hlen : pr.drawable.px.length
              = pr.drawable.width * pr.drawable.height * pr.drawable.bpp)
    (hagree : ∀ y k : Nat, y < pr.drawable.height → k < w * pr.drawable.bpp →
                buf2 y k = buf y k) :
    ∀ h : Nat, h ≤ pr.drawable.height →
      (List.range h).foldl
          (fun r (y : Nat) => gimp_pixel_rgn_set_row r (buf2 y) 0 (y : Int) (w : Int)) pr
        = (List.range h).foldl
          (fun r (y : Nat) => gimp_pixel_rgn_set_row r (buf y) 0 (y : Int) (w : Int)) pr := by
  intro h
  induction h with
  | zero => intro _; rfl
  | succ h ih =>
    intro hh
    have hlt : h < pr.drawable.height := hh
    obtain ⟨_, _, ib, _, _⟩ := rows_fold_inv pr buf w hw hlen h (Nat.le_of_succ_le hh)
    rw [List.range_succ, List.foldl_append, List.foldl_append, ih (Nat.le_of_succ_le hh)]
    generalize (List.range h).foldl
      (fun r (y : Nat) => gimp_pixel_rgn_set_row r (buf y) 0 (y : Int) (w : Int)) pr = r at *
    simp only [List.foldl_cons, List.foldl_nil, gimp_pixel_rgn_set_row, Int.toNat_ofNat]
    have hc : copy_bytes r.drawable.px
          (((h : Nat) * r.drawable.width + Int.toNat 0) * r.drawable.bpp) (buf2 h)
          (w * r.drawable.bpp)
        = copy_bytes r.drawable.px
          (((h : Nat) * r.drawable.width + Int.toNat 0) * r.drawable.bpp) (buf h)
          (w * r.drawable.bpp) := by
      apply copy_bytes_congr
      intro k hk
      rw [ib] at hk
      exact hagree h k hlt hk
    rw [hc]

/-- C2: with padding (`stride > width*bpp`), destination row `y` holds exactly
the `width*bpp` source bytes at offsets `y*stride .. y*stride + width*bpp - 1`,
for every `y < height`; and a second source that agrees with the first on
those offsets (so differs at most in padding bytes) gives the identical
destination. -/
theorem transfer_padding_excluded (rgn_out : GimpPixelRgn) (data data2 : Int → Nat)
    (width height stride bpp : Int)
    (hw : 0 ≤ width) (hh : 0 ≤ height)
    (hbpp : (rgn_out.drawable.bpp : Int) = bpp)
    (hdw : (rgn_out.drawable.width : Int) = width)
    (hdh : (rgn_out.drawable.height : Int) = height)
    (hlen : rgn_out.drawable.px.length
              = rgn_out.drawable.width * rgn_out.drawable.height * rgn_out.drawable.bpp)
    (hs : stride > width * bpp) :
    (∀ y k : Nat, (y : Int) < height → (k : Int) < width * bpp →
        (transfer rgn_out data width height stride bpp).drawable.px[
            (y * rgn_out.drawable.width + 0) * rgn_out.drawable.bpp + k]?
          = some (data ((y : Int) * stride + (k : Int))))
    ∧ ((∀ y k : Nat, (y : Int) < height → (k : Int) < width * bpp →
          data2 ((y : Int) * stride + (k : Int)) = data ((y : Int) * stride + (k : Int))) →
        transfer rgn_out data2 width height stride bpp
          = transfer rgn_out data width height stride bpp) := by
  obtain ⟨w, rfl⟩ := Int.eq_ofNat_of_zero_le hw
  obtain ⟨h, rfl⟩ := Int.eq_ofNat_of_zero_le hh
  have hW : rgn_out.drawable.width = w := by exact_mod_cast hdw
  have hH : rgn_out.drawable.height = h := by exact_mod_cast hdh
  have hne : ¬ (stride = (w : Int) * bpp) := by
    intro he
    rw [he] at hs
    exact lt_irrefl _ hs
  have hwle : w ≤ rgn_out.drawable.width := by rw [hW]
  have hhle : h ≤ rgn_out.drawable.height := by rw [hH]
  have hkey : ∀ k : Nat, (k : Int) < (w : Int) * bpp → k < w * rgn_out.drawable.bpp := by
    intro k hk
    rw [← hbpp] at hk
    exact_mod_cast hk
  unfold transfer
  rw [if_neg hne, if_neg hne]
  unfold transfer_rows
  rw [Int.toNat_ofNat]
  constructor
  · intro y k hy hk
    have hy2 : y < h := by exact_mod_cast hy
    obtain ⟨_, _, _, _, hc⟩ := rows_fold_inv rgn_out
      (fun (y k : Nat) => data ((y : Int) * stride + (k : Int))) w hwle hlen h hhle
    exact hc y k hy2 (hkey k hk)
  · intro hagree
    apply rows_fold_congr rgn_out
      (fun (y k : Nat) => data ((y : Int) * stride + (k : Int)))
      (fun (y k : Nat) => data2 ((y : Int) * stride + (k : Int))) w hwle hlen _ h hhle
    intro y k hy hk
    apply hagree y k
    · rw [hH] at hy
      exact_mod_cast hy
    · rw [← hbpp]
      exact_mod_cast hk

/-- Witness for C2 (scenario D): width 5, 4 bytes per pixel, stride 24, height 2.
Row 1 starts with the source byte at offset 24, and a source whose padding
bytes `[20,24)` and `[44,48)` are overwritten gives the same destination. -/
theorem transfer_padding_excluded_witness :
    (transfer (gimp_pixel_rgn_init ⟨5, 2, 4, List.replicate 40 0⟩ 0 0 5 2)
        (fun i => (i.toNat + 1) % 256) 5 2 24 4).drawable.px[(1 * 5 + 0) * 4 + 0]?
      = some (((24 : Int).toNat + 1) % 256)
    ∧ transfer (gimp_pixel_rgn_init ⟨5, 2, 4, List.replicate 40 0⟩ 0 0 5 2)
        (fun i => if (20 ≤ i ∧ i < 24) ∨ (44 ≤ i ∧ i < 48) then 255 else (i.toNat + 1) % 256)
        5 2 24 4
      = transfer (gimp_pixel_rgn_init ⟨5, 2, 4, List.replicate 40 0⟩ 0 0 5 2)
        (fun i => (i.toNat + 1) % 256) 5 2 24 4 :=
  ⟨(transfer_padding_excluded (gimp_pixel_rgn_init ⟨5, 2, 4, List.replicate 40 0⟩ 0 0 5 2)
      (fun i => (i.toNat + 1) % 256)
      (fun i => if (20 ≤ i ∧ i < 24) ∨ (44 ≤ i ∧ i < 48) then 255 else (i.toNat + 1) % 256)
      5 2 24 4 (by decide) (by decide) (by decide) (by decide) (by decide) (by decide)
      (by decide)).1 1 0 (by decide) (by decide),
   (transfer_padding_excluded (gimp_pixel_rgn_init ⟨5, 2, 4, List.replicate 40 0⟩ 0 0 5 2)
      (fun i => (i.toNat + 1) % 256)
      (fun i => if (20 ≤ i ∧ i < 24) ∨ (44 ≤ i ∧ i < 48) then 255 else (i.toNat + 1) % 256)
      5 2 24 4 (by decide) (by decide) (by decide) (by decide) (by decide) (by decide)
      (by decide)).2 (by
        intro y k hy hk
        have hy2 : y < 2 := by exact_mod_cast hy
        have hk2 : k < 20 := by exact_mod_cast hk
        have hcond : ¬ (((20 : Int) ≤ (y : Int) * 24 + (k : Int) ∧ (y : Int) * 24 + (k : Int) < 24)
            ∨ ((44 : Int) ≤ (y : Int) * 24 + (k : Int) ∧ (y : Int) * 24 + (k : Int) < 48)) := by
          omega
        simp only [if_neg hcond])⟩

/-! ## EXIF attachment -/

theorem size_t_sub_of_le (a b : Nat) (hb : b ≤ a) (ha : a < 2 ^ SIZE_BITS) :
    size_t_sub a b = a - b := by
  unfold size_t_sub
  have hb2 : b < 2 ^ SIZE_BITS := Nat.lt_of_le_of_lt hb ha
  rw [Nat.mod_eq_of_lt ha, Nat.mod_eq_of_lt hb2]
  have h1 : a + 2 ^ SIZE_BITS - b = (a - b) + 2 ^ SIZE_BITS := by omega
  rw [h1, Nat.add_mod_right, Nat.mod_eq_of_lt (by omega)]

theorem gint_of_size_t_of_le (n : Nat) (h : n ≤ G_MAXINT) : gint_of_size_t n = (n : Int) := by
  unfold G_MAXINT at h
  unfold gint_of_size_t
  have h1 : n % 2 ^ 32 = n := Nat.mod_eq_of_lt (by omega)
  rw [h1, if_pos (by omega)]

/-- The parasite step for a handle whose first "Exif" block is `block`. -/
theorem attach_exif_eq (stack_limit : Nat) (handle : heif_image_handle) (image_ID : Int)
    (block : heif_metadata_block) (rest : List heif_metadata_block)
    (hblocks : handle.exif_blocks = block :: rest) :
    attach_exif stack_limit handle image_ID
      = if block.data.length > stack_limit then none
        else some [Event.gimp_image_attach_new_parasite image_ID "exif-data" 0
              (gint_of_size_t (size_t_sub block.data.length 4))
              ((block.data.drop 4).take
                (gint_of_size_t (size_t_sub block.data.length 4)).toNat)] := by
  have hids : heif_image_handle_get_list_of_metadata_block_IDs handle 1 = [block.id] := by
    simp [heif_image_handle_get_list_of_metadata_block_IDs, hblocks]
  have hdata : heif_image_handle_get_metadata handle block.id = block.data := by
    simp [heif_image_handle_get_metadata, hblocks]
  have hpos : ((([block.id] : List Nat).length : Nat) : Int) > 0 := by
    rw [List.length_singleton]
    exact Int.one_pos
  simp only [attach_exif, hids, heif_image_handle_get_metadata_size, List.headD_cons, hdata,
    hpos, if_true]

/-- C3, within the limits of the stack and of `gint`: when the first "Exif" block of the handle has `N` bytes with
`4 <= N`, `N - 4 <= G_MAXINT` and `N` no more than the stack space `alloca`
can take, the one parasite call has the name "exif-data", length `N - 4` and as
bytes the bytes `[4, N)` of the block, in order and unchanged. -/
theorem attach_exif_skips_header (stack_limit : Nat) (handle : heif_image_handle)
    (image_ID : Int) (block : heif_metadata_block) (rest : List heif_metadata_block)
    (hblocks : handle.exif_blocks = block :: rest)
    (hN : 4 ≤ block.data.length) (hgint : block.data.length - 4 ≤ G_MAXINT)
    (hstack : block.data.length ≤ stack_limit) :
    attach_exif stack_limit handle image_ID
        = some [Event.gimp_image_attach_new_parasite image_ID "exif-data" 0
            ((block.data.length - 4 : Nat) : Int) (block.data.drop 4)]
      ∧ (block.data.drop 4).length = block.data.length - 4
      ∧ ∀ i : Nat, i < block.data.length - 4 → (block.data.drop 4)[i]? = block.data[4 + i]? := by
  have hsize : block.data.length < 2 ^ SIZE_BITS := by
    unfold G_MAXINT at hgint
    unfold SIZE_BITS
    omega
  refine ⟨?_, List.length_drop 4 block.data, ?_⟩
  · rw [attach_exif_eq stack_limit handle image_ID block rest hblocks,
      if_neg (Nat.not_lt.mpr hstack), size_t_sub_of_le _ _ hN hsize,
      gint_of_size_t_of_le _ hgint, Int.toNat_ofNat]
    have htake : List.take (block.data.length - 4) (List.drop 4 block.data)
        = List.drop 4 block.data := by
      apply List.take_of_length_le
      rw [List.length_drop]
    rw [htake]
  · intro i _
    rw [List.getElem?_drop]

/-- Witness for C3: a block of six bytes gives the parasite `[77, 42]`. -/
theorem attach_exif_skips_header_witness :
    attach_exif 8388608 exif_handle 1
        = some [Event.gimp_image_attach_new_parasite 1 "exif-data" 0
            ((([0, 0, 0, 6, 77, 42] : List Nat).length - 4 : Nat) : Int)
            (([0, 0, 0, 6, 77, 42] : List Nat).drop 4)]
      ∧ (([0, 0, 0, 6, 77, 42] : List Nat).drop 4).length
          = ([0, 0, 0, 6, 77, 42] : List Nat).length - 4
      ∧ ∀ i : Nat, i < ([0, 0, 0, 6, 77, 42] : List Nat).length - 4 →
          (([0, 0, 0, 6, 77, 42] : List Nat).drop 4)[i]?
            = ([0, 0, 0, 6, 77, 42] : List Nat)[4 + i]? :=
  attach_exif_skips_header 8388608 exif_handle 1 { id := 9, data := [0, 0, 0, 6, 77, 42] } []
    rfl (by decide) (by decide) (by decide)

/-- Counterexample to C3 as stated.  A block of 9 000 000 bytes with 8 MiB of
stack left: `alloca` overflows the stack and no parasite is attached.  A block
of `2^31 + 4` bytes with 4 GiB of stack left: the length the host receives is
`-2^31`, not `2^31`, and no byte of the block is handed over as payload. -/
theorem attach_exif_large_block :
    attach_exif 8388608 large_exif_handle 1 = none
      ∧ attach_exif 4294967296 huge_exif_handle 1
          = some [Event.gimp_image_attach_new_parasite 1 "exif-data" 0 (-2147483648) []] := by
  constructor
  · rw [attach_exif_eq 8388608 large_exif_handle 1
        { id := 9, data := List.replicate 9000000 0 } [] rfl]
    have hlen : (List.replicate 9000000 (0 : Nat)).length = 9000000 := List.length_replicate _ _
    simp only [hlen]
    rfl
  · rw [attach_exif_eq 4294967296 huge_exif_handle 1
        { id := 9, data := List.replicate 2147483652 0 } [] rfl]
    have hlen : (List.replicate 2147483652 (0 : Nat)).length = 2147483652 :=
      List.length_replicate _ _
    have hsub : size_t_sub 2147483652 4 = 2147483648 := by decide
    have hgint : gint_of_size_t 2147483648 = -2147483648 := by decide
    simp only [hlen, hsub, hgint]
    rw [if_neg (by decide)]
    rfl

/-- C10: for an "Exif" block of two bytes the length expression
`data_size - heif_exif_skip` is `2 - 4` in `size_t` arithmetic, that is
`2^64 - 2`, which is more than the two bytes of the block; the `gint`
parameter of `gimp_image_attach_new_parasite` receives it as `-2`. -/
theorem attach_exif_short_block :
    size_t_sub (heif_image_handle_get_metadata_size short_exif_handle 9) 4
        = 18446744073709551614
      ∧ ¬ (18446744073709551614 ≤ ([77, 77] : List Nat).length)
      ∧ attach_exif 8388608 short_exif_handle 1
          = some [Event.gimp_image_attach_new_parasite 1 "exif-data" 0 (-2) []] := by
  refine ⟨?_, ?_, ?_⟩
  · rfl
  · decide
  · rfl

/-! ## Default item -/

/-- Value of the default item for a container with a top-level image. -/
theorem resolve_primary_eq (ctx : heif_context) (primary first : Nat) (rest : List Nat)
    (htop : ctx.top_level = first :: rest) :
    resolve_primary ctx primary
        = some (if primary ∈ ctx.top_level then primary else first)
      ∧ heif_context_get_list_of_top_level_image_IDs ctx 1 = [first] := by
  have hlist : heif_context_get_list_of_top_level_image_IDs ctx 1 = [first] := by
    simp [heif_context_get_list_of_top_level_image_IDs, htop]
  refine ⟨?_, hlist⟩
  unfold resolve_primary
  by_cases hmem : primary ∈ ctx.top_level
  · have hc : heif_context_is_top_level_image_ID ctx primary = true := by
      simpa [heif_context_is_top_level_image_ID] using hmem
    simp [hc, hmem]
  · have hc : heif_context_is_top_level_image_ID ctx primary = false := by
      simpa [heif_context_is_top_level_image_ID] using hmem
    simp [hc, hmem, hlist]

/-- C4: for a container with at least one top-level image, the default item is
the declared primary when that is a top-level image, and otherwise the first
identifier of the top-level list (which `heif_context_get_list_of_top_level_image_IDs`
cut to one entry gives), whatever follows it in the list. -/
theorem resolve_primary_default (ctx : heif_context) (primary first : Nat) (rest : List Nat)
    (htop : ctx.top_level = first :: rest) :
    (primary ∈ ctx.top_level → resolve_primary ctx primary = some primary)
      ∧ (primary ∉ ctx.top_level →
          resolve_primary ctx primary = some first
            ∧ heif_context_get_list_of_top_level_image_IDs ctx 1 = [first]) := by
  obtain ⟨hres, hlist⟩ := resolve_primary_eq ctx primary first rest htop
  constructor
  · intro hmem
    rw [hres, if_pos hmem]
  · intro hmem
    rw [hres, if_neg hmem]
    exact ⟨rfl, hlist⟩

/-- Witness for C4: top-level images 5, 6, 7 and declared primary 9 give item 5. -/
theorem resolve_primary_default_witness :
    resolve_primary sample_context 9 = some 5
      ∧ heif_context_get_list_of_top_level_image_IDs sample_context 1 = [5] :=
  (resolve_primary_default sample_context 9 5 [6, 7] rfl).2 (by decide)

/-! ## Item selection -/

theorem attach_exif_handle_items (stack_limit : Nat) (handle : heif_image_handle)
    (image_ID : Int) (parasite : List Event)
    (h : attach_exif stack_limit handle image_ID = some parasite) :
    parasite.filterMap Event.handle_item = [] := by
  unfold attach_exif at h
  dsimp only at h
  split at h
  · split at h
    · exact absurd h (by simp)
    · cases h
      rfl
  · cases h
    rfl

theorem attach_exif_no_dialog (stack_limit : Nat) (handle : heif_image_handle)
    (image_ID : Int) (parasite : List Event)
    (h : attach_exif stack_limit handle image_ID = some parasite) :
    parasite.any Event.is_dialog = false := by
  unfold attach_exif at h
  dsimp only at h
  split at h
  · split at h
    · exact absurd h (by simp)
    · cases h
      rfl
  · cases h
    rfl

/-- From the handle lookup on, `load_heif` asks for exactly one handle: the
selected item. -/
theorem load_item_handle_items (w : World) (ctx : heif_context) (filename : String)
    (t : List Event) (selected_image : Nat) :
    (load_item w ctx filename t selected_image).trace.filterMap Event.handle_item
      = t.filterMap Event.handle_item ++ [selected_image] := by
  unfold load_item
  cases heif_context_get_image_handle ctx selected_image with
  | error message => simp [List.filterMap_append, Event.handle_item]
  | ok handle =>
    dsimp only
    generalize handle.decode
      (if heif_image_handle_has_alpha_channel handle ≠ 0
        then heif_chroma.heif_chroma_interleaved_32bit
        else heif_chroma.heif_chroma_interleaved_24bit) = decoded
    cases decoded with
    | error message => simp [List.filterMap_append, Event.handle_item]
    | ok img =>
      cases w.gimp_image_insert_layer
      · simp [List.filterMap_append, Event.handle_item]
      · cases hparasite : attach_exif w.stack_limit handle w.gimp_image_new with
        | none => simp [List.filterMap_append, Event.handle_item]
        | some parasite =>
          simp [List.filterMap_append, Event.handle_item,
            attach_exif_handle_items _ _ _ _ hparasite]

/-- From the handle lookup on, the chooser is not called. -/
theorem load_item_no_dialog (w : World) (ctx : heif_context) (filename : String)
    (t : List Event) (selected_image : Nat) :
    (load_item w ctx filename t selected_image).trace.any Event.is_dialog
      = t.any Event.is_dialog := by
  unfold load_item
  cases heif_context_get_image_handle ctx selected_image with
  | error message => simp [Event.is_dialog]
  | ok handle =>
    dsimp only
    generalize handle.decode
      (if heif_image_handle_has_alpha_channel handle ≠ 0
        then heif_chroma.heif_chroma_interleaved_32bit
        else heif_chroma.heif_chroma_interleaved_24bit) = decoded
    cases decoded with
    | error message => simp [Event.is_dialog]
    | ok img =>
      cases w.gimp_image_insert_layer
      · simp [Event.is_dialog]
      · cases hparasite : attach_exif w.stack_limit handle w.gimp_image_new with
        | none => simp [Event.is_dialog]
        | some parasite =>
          simp [Event.is_dialog, attach_exif_no_dialog _ _ _ _ hparasite]

/-- C9: once the container is open, has a top-level image and its primary
lookup succeeded, (1) the chooser is called if and only if the run is
interactive and there is more than one top-level image; (2) when it is not
called, the one handle lookup is for the resolved default item; (3) when it
is called and accepts, the one handle lookup is for the item the chooser left
in `selected_image`. -/
theorem load_heif_selection (w : World) (filename : String) (interactive : Int)
    (ctx : heif_context) (primary first : Nat) (rest : List Nat)
    (hread : w.read_from_file filename = .ok ctx)
    (htop : ctx.top_level = first :: rest)
    (hprim : ctx.primary = .ok primary) :
    ((load_heif w filename interactive).trace.any Event.is_dialog = true
        ↔ (interactive ≠ 0 ∧ heif_context_get_number_of_top_level_images ctx > 1))
    ∧ (¬ (interactive ≠ 0 ∧ heif_context_get_number_of_top_level_images ctx > 1) →
        (load_heif w filename interactive).trace.filterMap Event.handle_item
          = [if primary ∈ ctx.top_level then primary else first])
    ∧ ((interactive ≠ 0 ∧ heif_context_get_number_of_top_level_images ctx > 1) →
        (w.dialog ctx (if primary ∈ ctx.top_level then primary else first)).1 = true →
        (load_heif w filename interactive).trace.filterMap Event.handle_item
          = [(w.dialog ctx (if primary ∈ ctx.top_level then primary else first)).2]) := by
  have hres := (resolve_primary_eq ctx primary first rest htop).1
  have hnum : ¬ (heif_context_get_number_of_top_level_images ctx = 0) := by
    simp [heif_context_get_number_of_top_level_images, htop]
    omega
  by_cases hc : interactive ≠ 0 ∧ heif_context_get_number_of_top_level_images ctx > 1
  · by_cases hd : (w.dialog ctx (if primary ∈ ctx.top_level then primary else first)).1 = true
    · have hrun : load_heif w filename interactive
          = load_item w ctx filename
              ([Event.heif_context_alloc, Event.heif_context_read_from_file filename]
                ++ [Event.dialog (if primary ∈ ctx.top_level then primary else first)])
              (w.dialog ctx (if primary ∈ ctx.top_level then primary else first)).2 := by
        simp only [load_heif, hread, hnum, heif_context_get_primary_image_ID, hprim, hres,
          hc, hd, if_true, if_false, and_self, Bool.not_true, ne_eq, not_false_eq_true]
        simp
      rw [hrun, load_item_no_dialog, load_item_handle_items]
      refine ⟨?_, ?_, ?_⟩
      · simp [Event.is_dialog, hc]
      · intro hn; exact absurd hc hn
      · intro _ _; simp [Event.handle_item]
    · have hd2 : (w.dialog ctx (if primary ∈ ctx.top_level then primary else first)).1 = false := by
        simpa using hd
      have hrun : load_heif w filename interactive
          = { ret := some LOAD_HEIF_CANCEL,
              trace := [Event.heif_context_alloc, Event.heif_context_read_from_file filename]
                ++ [Event.dialog (if primary ∈ ctx.top_level then primary else first),
                    Event.heif_context_free],
              surface := none } := by
        simp only [load_heif, hread, hnum, heif_context_get_primary_image_ID, hprim, hres,
          hc, hd2, if_true, if_false, and_self, Bool.not_false, ne_eq, not_false_eq_true]
      rw [hrun]
      refine ⟨?_, ?_, ?_⟩
      · simp [Event.is_dialog, hc]
      · intro hn; exact absurd hc hn
      · intro _ hacc; exact absurd hacc hd
  · have hrun : load_heif w filename interactive
        = load_item w ctx filename
            [Event.heif_context_alloc, Event.heif_context_read_from_file filename]
            (if primary ∈ ctx.top_level then primary else first) := by
      simp only [load_heif, hread, hnum, heif_context_get_primary_image_ID, hprim, hres,
        hc, if_false]
    rw [hrun, load_item_no_dialog, load_item_handle_items]
    refine ⟨?_, ?_, ?_⟩
    · simp [Event.is_dialog, hc]
    · intro _; simp [Event.handle_item]
    · intro hn; exact absurd hn hc

/-- Witness for C9: three top-level images, interactive run, the user picks
item 6: the chooser is called and the handle lookup is for item 6. -/
theorem load_heif_selection_witness :
    (load_heif world_ok "a.heic" 1).trace.any Event.is_dialog = true
      ∧ (load_heif world_ok "a.heic" 1).trace.filterMap Event.handle_item
          = [(world_ok.dialog sample_context
                (if 9 ∈ sample_context.top_level then 9 else 5)).2] :=
  ⟨(load_heif_selection world_ok "a.heic" 1 sample_context 9 5 [6, 7] rfl rfl rfl).1.mpr
      ⟨by decide, by decide⟩,
   (load_heif_selection world_ok "a.heic" 1 sample_context 9 5 [6, 7] rfl rfl rfl).2.2
      ⟨by decide, by decide⟩ rfl⟩

/-! ## Results of `load_heif` and `run` -/

/-- What `load_heif` does when the chooser is reached and reports cancellation. -/
theorem load_heif_cancel_eq (w : World) (filename : String) (interactive : Int)
    (ctx : heif_context) (primary first second : Nat) (rest : List Nat)
    (hread : w.read_from_file filename = .ok ctx)
    (htop : ctx.top_level = first :: second :: rest)
    (hprim : ctx.primary = .ok primary)
    (hint : interactive ≠ 0)
    (hcancel : (w.dialog ctx (if primary ∈ ctx.top_level then primary else first)).1 = false) :
    load_heif w filename interactive
      = { ret := some LOAD_HEIF_CANCEL,
          trace := [Event.heif_context_alloc, Event.heif_context_read_from_file filename,
                    Event.dialog (if primary ∈ ctx.top_level then primary else first),
                    Event.heif_context_free],
          surface := none } := by
  have hres := (resolve_primary_eq ctx primary first (second :: rest) htop).1
  have hnum : ¬ (heif_context_get_number_of_top_level_images ctx = 0) := by
    simp [heif_context_get_number_of_top_level_images, htop]
    omega
  have hc : interactive ≠ 0 ∧ heif_context_get_number_of_top_level_images ctx > 1 := by
    refine ⟨hint, ?_⟩
    simp [heif_context_get_number_of_top_level_images, htop]
  simp only [load_heif, hread, hnum, heif_context_get_primary_image_ID, hprim, hres,
    hc, hcancel, if_true, if_false, and_self, Bool.not_false, ne_eq, not_false_eq_true]
  rfl

/-- C5: when the chooser is reached (container open, more than one top-level
image, primary lookup fine, interactive run) and reports cancellation,
`load_heif` returns `LOAD_HEIF_CANCEL` after a trace without `gimp_image_new`
and without `gimp_message`, and `run` hands back the one value
`GIMP_PDB_CANCEL`, which is not `GIMP_PDB_EXECUTION_ERROR`. -/
theorem cancel_is_not_failure (w : World) (filename : String) (interactive : Int)
    (ctx : heif_context) (primary first second : Nat) (rest : List Nat)
    (hread : w.read_from_file filename = .ok ctx)
    (htop : ctx.top_level = first :: second :: rest)
    (hprim : ctx.primary = .ok primary)
    (hint : interactive ≠ 0)
    (hcancel : (w.dialog ctx (if primary ∈ ctx.top_level then primary else first)).1 = false) :
    (load_heif w filename interactive).ret = some LOAD_HEIF_CANCEL
      ∧ (load_heif w filename interactive).trace.any Event.is_image_new = false
      ∧ (load_heif w filename interactive).trace.any Event.is_message = false
      ∧ (∃ r : RunResult, run w LOAD_PROC 3 GIMP_RUN_INTERACTIVE filename = some r
          ∧ r.d_status = GimpPDBStatusType.GIMP_PDB_CANCEL
          ∧ r.nreturn_vals = 1
          ∧ r.trace.any Event.is_image_new = false
          ∧ r.trace.any Event.is_message = false)
      ∧ GimpPDBStatusType.GIMP_PDB_CANCEL ≠ GimpPDBStatusType.GIMP_PDB_EXECUTION_ERROR := by
  have h1 := load_heif_cancel_eq w filename interactive ctx primary first second rest
    hread htop hprim hint hcancel
  have h2 := load_heif_cancel_eq w filename 1 ctx primary first second rest
    hread htop hprim (by decide) hcancel
  refine ⟨?_, ?_, ?_, ?_, ?_⟩
  · rw [h1]
  · rw [h1]; rfl
  · rw [h1]; rfl
  · refine ⟨{ nreturn_vals := 1, d_status := GimpPDBStatusType.GIMP_PDB_CANCEL,
              d_image := none, trace := (load_heif w filename 1).trace }, ?_, rfl, rfl, ?_, ?_⟩
    · simp only [run, if_true, ne_eq, not_true_eq_false, if_false, h2]
      rfl
    · rw [h2]; rfl
    · rw [h2]; rfl
  · decide

/-- Witness for C5: three top-level images, interactive run, the user cancels. -/
theorem cancel_is_not_failure_witness :
    (load_heif world_cancel "a.heic" 1).ret = some LOAD_HEIF_CANCEL
      ∧ (load_heif world_cancel "a.heic" 1).trace.any Event.is_image_new = false
      ∧ (load_heif world_cancel "a.heic" 1).trace.any Event.is_message = false
      ∧ (∃ r : RunResult, run world_cancel LOAD_PROC 3 GIMP_RUN_INTERACTIVE "a.heic" = some r
          ∧ r.d_status = GimpPDBStatusType.GIMP_PDB_CANCEL
          ∧ r.nreturn_vals = 1
          ∧ r.trace.any Event.is_image_new = false
          ∧ r.trace.any Event.is_message = false)
      ∧ GimpPDBStatusType.GIMP_PDB_CANCEL ≠ GimpPDBStatusType.GIMP_PDB_EXECUTION_ERROR :=
  cancel_is_not_failure world_cancel "a.heic" 1 sample_context 9 5 6 [7] rfl rfl rfl
    (by decide) rfl

/-- C7: on a host where `gimp_image_insert_layer` fails, `load_heif` returns
`LOAD_HEIF_ERROR` after this trace: the context and the image handle were
acquired and are never released (only the decoded image is). -/
theorem insert_failure_leaks :
    load_heif world_insert_fails "a.heic" 0
        = { ret := some LOAD_HEIF_ERROR,
            trace := [Event.heif_context_alloc, Event.heif_context_read_from_file "a.heic",
                      Event.heif_context_get_image_handle 5 true,
                      Event.heif_decode_image heif_chroma.heif_chroma_interleaved_24bit true,
                      Event.gimp_image_new 2 2, Event.gimp_image_set_filename 1 "a.heic",
                      Event.gimp_layer_new 1 2 2 false, Event.gimp_image_insert_layer 1 2,
                      Event.heif_image_release, Event.gimp_image_delete 1],
            surface := none }
      ∧ (load_heif world_insert_fails "a.heic" 0).trace.count Event.heif_context_alloc = 1
      ∧ (load_heif world_insert_fails "a.heic" 0).trace.count Event.heif_context_free = 0
      ∧ (load_heif world_insert_fails "a.heic" 0).trace.count
          (Event.heif_context_get_image_handle 5 true) = 1
      ∧ (load_heif world_insert_fails "a.heic" 0).trace.count Event.heif_image_handle_release = 0 := by
  refine ⟨rfl, ?_, ?_, ?_, ?_⟩ <;> decide

/-- C8: on a host where `gimp_image_insert_layer` fails, `load_heif` returns
`LOAD_HEIF_ERROR` without a single `gimp_message` call. -/
theorem insert_failure_silent :
    (load_heif world_insert_fails "a.heic" 0).ret = some LOAD_HEIF_ERROR
      ∧ (load_heif world_insert_fails "a.heic" 0).trace.countP Event.is_message = 0 := by
  constructor
  · rfl
  · rfl

end HeifPlugin
